import Mathlib

/-!
A shallow embedding of `src-vscode-mock/lsp-server.ts` from the
go-language-server repository: the document/editor session model and the
request-dispatch pipeline of the `LspServer` class.

Modelling conventions:
- Document URIs are strings compared by value.  `TextDocument`, `TextEditor`
  and the `window` singleton live in files outside `src/`; their shape here is
  modelled from the spec (a document is identified by its URI and carries a
  version and text; an editor is a document plus an optional selection; the
  window holds the visible-editor list and the active-editor pointer).
- The JavaScript `Map` of `openedDocumentUris` is an association list with
  unique keys; `set` replaces in place, `delete` filters the key out.
- Side effects that leave the session state (calls to `buildCode`, client
  `showMessage` notifications, `document.save()` mutations, command execution)
  are recorded as an ordered event trace.
- A thrown JavaScript exception from `getOpenDocument` is the
  `DispatchOutcome.notOpen` outcome; a rejected promise wrapped by the
  dispatcher's catch handler is `DispatchOutcome.failure code message` with
  `code = -32600` (`lsp.ErrorCodes.InvalidRequest`).  `lsp.MessageType.Error`
  is the numeral 1.  A JavaScript TypeError on `undefined` (reading or writing
  a field of a missing active editor) is modelled as `Option.none` results.
- Provider calls are opaque collaborators: each operation that delegates takes
  the provider's outcome (`Except String result`) as a parameter.
-/

namespace LspServerModel

/-- A zero-based line/character position (`lsp.Position`). -/
structure Pos where
  line : Nat
  character : Nat
deriving DecidableEq, Repr

/-- A text range (`Range` from `./types`): start and end positions. -/
structure LspRange where
  rangeStart : Pos
  rangeStop : Pos
deriving DecidableEq, Repr

/-- A `Selection` (from `./vscode`) wraps a range. -/
structure Selection where
  range : LspRange
deriving DecidableEq, Repr

/-- Modelled from the spec: `TextDocument` (source file `text-document.ts` is
not under `src/`).  Identity is the URI; attributes are version and content. -/
structure TextDocument where
  uri : String
  version : Nat
  text : String
deriving DecidableEq, Repr

/-- Modelled from the spec: `TextEditor` (source file `text-editor.ts` is not
under `src/`): a view over exactly one document plus a current selection. -/
structure TextEditor where
  document : TextDocument
  selection : Option Selection
deriving DecidableEq, Repr

/-- Modelled from the spec: the process-wide `window` singleton (from
`./window`): ordered visible editors and the nullable active editor. -/
structure Window where
  visibleTextEditors : List TextEditor
  activeTextEditor : Option TextEditor
deriving DecidableEq, Repr

/-- The mutable state of `LspServer` together with the `window` singleton it
manipulates: the `openedDocumentUris` map, the window, and the
`hasStartedInitialBuild` flag. -/
structure ServerState where
  openedDocumentUris : List (String × TextDocument)
  window : Window
  hasStartedInitialBuild : Bool
deriving DecidableEq, Repr

/-- The parts of `lsp.DidOpenTextDocumentParams.textDocument` the server
reads. -/
structure DidOpenParams where
  uri : String
  version : Nat
  text : String
deriving DecidableEq, Repr

/-- A positional argument of `executeCommand` (`any` in the source). -/
inductive CmdArg where
  | str (s : String)
  | range (r : LspRange)
  | num (n : Nat)
deriving DecidableEq, Repr

/-- Observable side effects, in program order. -/
inductive Event where
  /-- A call `buildCode(forced)` (from `../src/goBuild`). -/
  | buildCall (forced : Bool)
  /-- A client notification `lspClient.showMessage` with the given
  `lsp.MessageType` numeral (Error = 1) and message text. -/
  | showMessage (msgType : Nat) (message : String)
  /-- The state mutation performed by `document.save()`. -/
  | docSave (uri : String)
  /-- A call into an opaque provider. -/
  | providerCall (name : String)
  /-- A call `commands.executeCommand(name, ...args)`. -/
  | runCommand (name : String) (args : List CmdArg)
deriving DecidableEq, Repr

/-- How a dispatched request ends. -/
inductive DispatchOutcome (T : Type) where
  /-- The synchronous throw of `getOpenDocument`: `Document <uri> has not
  been opened.` -/
  | notOpen (uri : String)
  | success (result : T)
  /-- The rethrown `lsp.ResponseError` built in the catch handler:
  error code and message. -/
  | failure (code : Int) (message : String)
deriving DecidableEq, Repr

/-- State, emitted events and outcome of one dispatched request. -/
structure DispatchResult (T : Type) where
  state : ServerState
  events : List Event
  outcome : DispatchOutcome T
deriving DecidableEq, Repr

/-- `Map.get`: first entry with the key, if any. -/
def mapGet : List (String × TextDocument) → String → Option TextDocument
  | [], _ => none
  | kv :: rest, k => if kv.1 = k then some kv.2 else mapGet rest k

/-- `Map.set`: replace in place if the key exists, else append. -/
def mapSet : List (String × TextDocument) → String → TextDocument →
    List (String × TextDocument)
  | [], k, v => [(k, v)]
  | kv :: rest, k, v =>
      if kv.1 = k then (k, v) :: rest else kv :: mapSet rest k v

/-- `Map.delete`: drop every entry with the key (keys are unique). -/
def mapDelete : List (String × TextDocument) → String →
    List (String × TextDocument)
  | [], _ => []
  | kv :: rest, k =>
      if kv.1 = k then mapDelete rest k else kv :: mapDelete rest k

/-- `visibleTextEditors.find(editor => editor.document.uri === uri)`. -/
def findEditor : List TextEditor → String → Option TextEditor
  | [], _ => none
  | e :: rest, uri =>
      if e.document.uri = uri then some e else findEditor rest uri

/-- The loop of `didCloseTextDocument`: the index of the first visible editor
whose document URI matches, or the list length if none does. -/
def matchIndex : List TextEditor → String → Nat
  | [], _ => 0
  | e :: rest, uri =>
      if e.document.uri = uri then 0 else matchIndex rest uri + 1

/-- The aliasing effect of `window.activeTextEditor.selection = ...` on the
visible list: the first editor matching the URI gets the new selection. -/
def setSelectionFirst : List TextEditor → String → Selection → List TextEditor
  | [], _, _ => []
  | e :: rest, uri, sel =>
      if e.document.uri = uri then { e with selection := some sel } :: rest
      else e :: setSelectionFirst rest uri sel

/-- `getOpenDocument(uri)`: `none` models the thrown
`Document ... has not been opened.` error. -/
def getOpenDocument (s : ServerState) (uri : String) : Option TextDocument :=
  mapGet s.openedDocumentUris uri

/-- `activateEditor(document)` with no selection argument: point
`window.activeTextEditor` at the first visible editor whose document URI
matches (`undefined` if none matches — `find` can miss). -/
def activateEditor (s : ServerState) (document : TextDocument) : ServerState :=
  { s with window :=
      { s.window with
          activeTextEditor :=
            findEditor s.window.visibleTextEditors document.uri } }

/-- `activateEditor(document, selection)`: as above, then overwrite the active
editor's selection.  When no visible editor matches, the selection write is a
TypeError on `undefined` (`none`). -/
def activateEditorWithSelection (s : ServerState) (document : TextDocument)
    (selection : LspRange) : Option ServerState :=
  match findEditor s.window.visibleTextEditors document.uri with
  | none => none
  | some e =>
      some { s with window :=
        { visibleTextEditors :=
            setSelectionFirst s.window.visibleTextEditors document.uri
              { range := selection },
          activeTextEditor :=
            some { e with selection := some { range := selection } } } }

/-- `executeOnDocument(serviceName, params, lambda)`: resolve the document
(throwing `notOpen` if absent), activate its editor, run the lambda; on a
rejected lambda, emit one `showMessage` of type Error (1) with the error text
and rethrow it as an `lsp.ResponseError` with code
`lsp.ErrorCodes.InvalidRequest` (-32600) and the same text.  The lambda is a
function of the resolved document returning its emitted events and outcome. -/
def executeOnDocument {T : Type} (s : ServerState) (uri : String)
    (lam : TextDocument → List Event × Except String T) : DispatchResult T :=
  match getOpenDocument s uri with
  | none => { state := s, events := [], outcome := DispatchOutcome.notOpen uri }
  | some document =>
    let s1 := activateEditor s document
    match lam document with
    | (evs, Except.ok t) =>
        { state := s1, events := evs, outcome := DispatchOutcome.success t }
    | (evs, Except.error err) =>
        { state := s1,
          events := evs ++ [Event.showMessage 1 err],
          outcome := DispatchOutcome.failure (-32600) err }

/-- `didOpenTextDocument(params)`: register the document, append a fresh
editor to the visible list, make it active, and call `buildCode(false)`.
Note the source computes `hadBuild = this.hasStartedInitialBuild`, sets the
flag, and then calls `buildCode(false)` unconditionally — `hadBuild` is never
consulted. -/
def didOpenTextDocument (s : ServerState) (params : DidOpenParams) :
    ServerState × List Event :=
  let document : TextDocument :=
    { uri := params.uri, version := params.version, text := params.text }
  let editor : TextEditor := { document := document, selection := none }
  let s1 : ServerState :=
    { openedDocumentUris := mapSet s.openedDocumentUris params.uri document,
      window :=
        { visibleTextEditors := s.window.visibleTextEditors ++ [editor],
          activeTextEditor := some editor },
      hasStartedInitialBuild := s.hasStartedInitialBuild }
  let _hadBuild := s1.hasStartedInitialBuild
  ({ s1 with hasStartedInitialBuild := true }, [Event.buildCall false])

/-- `didCloseTextDocument(params)`: delete the URI from the registry; scan the
visible list for the first editor whose document URI matches; if found at
index `i`, the source calls `splice(i)` with a single argument, which removes
the elements from `i` to the end — modelled as truncation at the match index
(truncation at the length is the identity, covering the no-match case). -/
def didCloseTextDocument (s : ServerState) (uri : String) : ServerState :=
  { s with
      openedDocumentUris := mapDelete s.openedDocumentUris uri,
      window :=
        { s.window with
            visibleTextEditors :=
              s.window.visibleTextEditors.take
                (matchIndex s.window.visibleTextEditors uri) } }

/-- `didSaveTextDocument(params)`: dispatch a lambda that runs
`document.save()`, then `.then(() => buildCode(false))` — the build runs only
when the dispatch promise fulfills.  `saveOutcome` is the outcome of the
opaque `document.save()` call; when it throws, no save mutation happens. -/
def didSaveTextDocument (s : ServerState) (uri : String)
    (saveOutcome : Except String Unit) : DispatchResult Unit :=
  let d := executeOnDocument s uri (fun document =>
    match saveOutcome with
    | Except.ok _ => ([Event.docSave document.uri], Except.ok ())
    | Except.error e => ([], Except.error e))
  match d.outcome with
  | DispatchOutcome.success _ =>
      { d with events := d.events ++ [Event.buildCall false] }
  | _ => d

/-- An `lsp.CompletionList`: completion items are modelled by their labels. -/
structure CompletionList where
  isIncomplete : Bool
  items : List String
deriving DecidableEq, Repr

/-- `completion(params)`: delegate to the completion provider and return
`isIncomplete = false` with the provider's items concatenated with
`snippetProposalProvider.proposals`.  `proposals` stands for that static list
(its source file is not under `src/`); `provided` is the provider outcome. -/
def completion (s : ServerState) (uri : String) (proposals : List String)
    (provided : Except String (List String)) : DispatchResult CompletionList :=
  executeOnDocument s uri (fun _document =>
    ([Event.providerCall "completion"],
      match provided with
      | Except.ok items =>
          Except.ok { isIncomplete := false, items := items ++ proposals }
      | Except.error e => Except.error e))

/-- `executeCommand(params)`: read `args[args.length - 2]` as the URI and
`args[args.length - 1]` as the range, resolve the document (throwing if not
open), activate its editor with that selection, and run the named command
with `args.slice(0, -2)`.  `none` covers the thrown lookup error, the
TypeError when no visible editor matches, and ill-shaped trailing
arguments. -/
def executeCommand (s : ServerState) (command : String) (args : List CmdArg) :
    Option (ServerState × List Event) :=
  match args.get? (args.length - 2), args.get? (args.length - 1) with
  | some (CmdArg.str uri), some (CmdArg.range r) =>
    (match getOpenDocument s uri with
     | none => none
     | some document =>
       match activateEditorWithSelection s document r with
       | none => none
       | some s1 =>
           some (s1, [Event.runCommand command (args.dropLast.dropLast)]))
  | _, _ => none

/-- `documentHighlight(arg)`: logs and returns `[]` — no registry lookup, no
activation, no provider call, no failure. -/
def documentHighlight (s : ServerState) (_uri : String) (_pos : Pos) :
    ServerState × List Event × List LspRange :=
  (s, [], [])

/-- A `CodeLens` (from `./types`): a range plus the document field the server
overwrites in `codeLensResolve`. -/
structure CodeLens where
  range : LspRange
  document : Option TextDocument
deriving DecidableEq, Repr

/-- `codeLensResolve(codeLens)`: overwrite `codeLens.document` with
`window.activeTextEditor.document` (a TypeError when there is no active
editor, modelled `none`), then delegate to
`referenceCodeLensProvider.resolveCodeLens` — with no registry lookup, no
activation, and no catch handler.  `resolve` is the opaque provider. -/
def codeLensResolve (s : ServerState) (lens : CodeLens)
    (resolve : CodeLens → List Event × Except String CodeLens) :
    Option (ServerState × (List Event × Except String CodeLens)) :=
  match s.window.activeTextEditor with
  | none => none
  | some e => some (s, resolve { lens with document := some e.document })

/-- Number of `buildCall` events in a trace. -/
def buildCount (evs : List Event) : Nat :=
  (evs.filter (fun e => match e with
    | Event.buildCall _ => true
    | _ => false)).length

/-- Number of `showMessage` events in a trace. -/
def showMessageCount (evs : List Event) : Nat :=
  (evs.filter (fun e => match e with
    | Event.showMessage _ _ => true
    | _ => false)).length

/-- Run a sequence of `didOpen` notifications, collecting all events. -/
def runOpens : ServerState → List DidOpenParams → ServerState × List Event
  | s, [] => (s, [])
  | s, p :: ps =>
    let r := didOpenTextDocument s p
    let rest := runOpens r.1 ps
    (rest.1, r.2 ++ rest.2)

/-- The server state at startup: empty registry, no editors, no build yet. -/
def initState : ServerState :=
  { openedDocumentUris := [],
    window := { visibleTextEditors := [], activeTextEditor := none },
    hasStartedInitialBuild := false }

/-! Concrete fixtures used by witnesses and counterexamples. -/

/-- Open notification for document `a.go`. -/
def paramsA : DidOpenParams :=
  { uri := "file:///a.go", version := 1, text := "package a" }

/-- Open notification for document `b.go`. -/
def paramsB : DidOpenParams :=
  { uri := "file:///b.go", version := 1, text := "package b" }

/-- Open notification for document `c.go`. -/
def paramsC : DidOpenParams :=
  { uri := "file:///c.go", version := 1, text := "package c" }

/-- The document registered by `paramsA`. -/
def docA : TextDocument :=
  { uri := "file:///a.go", version := 1, text := "package a" }

/-- The editor created for `docA` on open. -/
def edA : TextEditor := { document := docA, selection := none }

/-- A state with `a.go` open and its editor visible and active. -/
def stW : ServerState :=
  { openedDocumentUris := [("file:///a.go", docA)],
    window := { visibleTextEditors := [edA], activeTextEditor := some edA },
    hasStartedInitialBuild := true }

/-- A provider lambda that fails with message `boom`. -/
def lamBoom : TextDocument → List Event × Except String Nat :=
  fun _ => ([Event.providerCall "definition"], Except.error "boom")

/-- A provider lambda that succeeds with the document version. -/
def lamOk : TextDocument → List Event × Except String Nat :=
  fun d => ([Event.providerCall "definition"], Except.ok d.version)

/-- A concrete selection range. -/
def rngW : LspRange :=
  { rangeStart := { line := 0, character := 0 },
    rangeStop := { line := 0, character := 5 } }

/-- A code lens with no document attached yet. -/
def lensW : CodeLens := { range := rngW, document := none }

/-- A resolve provider that echoes the lens it was given. -/
def resolveEcho : CodeLens → List Event × Except String CodeLens :=
  fun l => ([Event.providerCall "codeLensResolve"], Except.ok l)

/-- The state after opening `a.go` then `b.go`. -/
def stAB : ServerState := (runOpens initState [paramsA, paramsB]).1

/-- The state after opening `a.go`, `b.go` then `c.go`. -/
def stABC : ServerState := (runOpens initState [paramsA, paramsB, paramsC]).1

/-! Helper lemmas. -/

/-- `showMessageCount` adds over concatenation. -/
theorem showMessageCount_append (l1 l2 : List Event) :
    showMessageCount (l1 ++ l2) = showMessageCount l1 + showMessageCount l2 := by
  simp [showMessageCount, List.filter_append]

/-- Looking a key up after deleting it yields nothing. -/
theorem mapGet_mapDelete (m : List (String × TextDocument)) (k : String) :
    mapGet (mapDelete m k) k = none := by
  induction m with
  | nil => rfl
  | cons kv rest ih =>
    by_cases h : kv.1 = k
    · simpa [mapDelete, h] using ih
    · simpa [mapDelete, mapGet, h] using ih

/-! Claim theorems. -/

/-- Claim C1, failing-input theorem: `buildCode` is called on every `didOpen`,
not only the first — the source computes the `hadBuild` guard but never
consults it — so opening two documents produces two build calls, although the
`hasStartedInitialBuild` flag was already set by the first open. -/
theorem didOpen_builds_on_every_open :
    buildCount (runOpens initState [paramsA, paramsB]).2 = 2 ∧
    (didOpenTextDocument initState paramsA).1.hasStartedInitialBuild = true := by
  decide

/-- Claim C2, failing-input theorem: with `a.go`, `b.go`, `c.go` open (three
visible editors), closing `b.go` leaves only `a.go`'s editor visible: the
single-argument `splice(i)` removes the matching editor and every editor after
it, while `c.go` is still registered as open. -/
theorem didClose_truncates_visible_list :
    (didCloseTextDocument stABC "file:///b.go").window.visibleTextEditors.map
        (fun e => e.document.uri) = ["file:///a.go"] ∧
    getOpenDocument (didCloseTextDocument stABC "file:///b.go")
        "file:///b.go" = none ∧
    getOpenDocument (didCloseTextDocument stABC "file:///b.go")
        "file:///c.go" ≠ none := by
  decide

/-- Claim C3, failing-input theorem: after opening `a.go` then `b.go` and
closing `a.go`, document `b.go` is still open but its editor was truncated
away, so dispatching a request on `b.go` sets `window.activeTextEditor` to
`undefined` — the active-editor pointer does become null again after the
first open. -/
theorem dispatch_loses_active_editor :
    stAB.window.activeTextEditor ≠ none ∧
    getOpenDocument (didCloseTextDocument stAB "file:///a.go")
        "file:///b.go" ≠ none ∧
    (executeOnDocument (didCloseTextDocument stAB "file:///a.go")
        "file:///b.go" lamOk).state.window.activeTextEditor = none := by
  decide

/-- Claim C4: when the delegated provider call of a document-based request
fails, the dispatcher emits exactly one `showMessage` notification of type
Error (1) carrying the error text, and fails the request with the
InvalidRequest code (-32600) carrying the same text. -/
theorem provider_failure_dual_report {T : Type} (s : ServerState) (uri : String)
    (doc : TextDocument) (lam : TextDocument → List Event × Except String T)
    (evs : List Event) (err : String)
    (hdoc : getOpenDocument s uri = some doc)
    (hfail : lam doc = (evs, Except.error err))
    (hclean : showMessageCount evs = 0) :
    showMessageCount (executeOnDocument s uri lam).events = 1 ∧
    Event.showMessage 1 err ∈ (executeOnDocument s uri lam).events ∧
    (executeOnDocument s uri lam).outcome =
      DispatchOutcome.failure (-32600) err := by
  simp only [executeOnDocument, hdoc, hfail]
  refine ⟨?_, ?_, ?_⟩
  · rw [showMessageCount_append, hclean]
    rfl
  · simp
  · trivial

/-- Witness for C4: a concrete failing dispatch reports the failure both ways. -/
theorem provider_failure_dual_report_witness :
    showMessageCount (executeOnDocument stW "file:///a.go" lamBoom).events = 1 ∧
    Event.showMessage 1 "boom" ∈
      (executeOnDocument stW "file:///a.go" lamBoom).events ∧
    (executeOnDocument stW "file:///a.go" lamBoom).outcome =
      DispatchOutcome.failure (-32600) "boom" :=
  provider_failure_dual_report stW "file:///a.go" docA lamBoom
    [Event.providerCall "definition"] "boom" (by decide) rfl rfl

/-- Claim C5: a URI absent from the registry makes every dispatched
document-based operation fail with the document-not-open error before any
provider runs; a registered URI never produces that error; and closing a
document removes its URI from the registry, so later operations on it fail. -/
theorem document_lookup_contract (s : ServerState) (uri : String) :
    (getOpenDocument s uri = none →
      ∀ (T : Type) (lam : TextDocument → List Event × Except String T),
        (executeOnDocument s uri lam).outcome = DispatchOutcome.notOpen uri ∧
        (executeOnDocument s uri lam).events = []) ∧
    (∀ doc, getOpenDocument s uri = some doc →
      ∀ (T : Type) (lam : TextDocument → List Event × Except String T),
        (executeOnDocument s uri lam).outcome ≠ DispatchOutcome.notOpen uri) ∧
    getOpenDocument (didCloseTextDocument s uri) uri = none := by
  refine ⟨?_, ?_, ?_⟩
  · intro h T lam
    simp [executeOnDocument, h]
  · intro doc hdoc T lam
    cases hl : lam doc with
    | mk evs r => cases r <;> simp [executeOnDocument, hdoc, hl]
  · simpa [didCloseTextDocument, getOpenDocument] using
      mapGet_mapDelete s.openedDocumentUris uri

/-- Witness for C5: concrete lookups on a never-opened and an open URI, and on
a URI just closed. -/
theorem document_lookup_contract_witness :
    ((executeOnDocument initState "file:///a.go" lamOk).outcome =
        DispatchOutcome.notOpen "file:///a.go" ∧
      (executeOnDocument initState "file:///a.go" lamOk).events = []) ∧
    (executeOnDocument stW "file:///a.go" lamOk).outcome ≠
      DispatchOutcome.notOpen "file:///a.go" ∧
    getOpenDocument (didCloseTextDocument stW "file:///a.go")
      "file:///a.go" = none :=
  ⟨(document_lookup_contract initState "file:///a.go").1 rfl Nat lamOk,
   (document_lookup_contract stW "file:///a.go").2.1 docA (by decide) Nat lamOk,
   (document_lookup_contract stW "file:///a.go").2.2⟩

/-- Claim C6: `executeCommand` with arguments `[a, b, uri, range]` on an open
document whose editor is visible re-activates that editor with the selection
set to the range, and invokes the named command with exactly `[a, b]`. -/
theorem executeCommand_reactivates_with_context (s : ServerState)
    (cmd : String) (a b : CmdArg) (uri : String) (r : LspRange)
    (doc : TextDocument) (e : TextEditor)
    (hdoc : getOpenDocument s uri = some doc)
    (hfind : findEditor s.window.visibleTextEditors doc.uri = some e) :
    executeCommand s cmd [a, b, CmdArg.str uri, CmdArg.range r] =
      some ({ s with window :=
        { visibleTextEditors :=
            setSelectionFirst s.window.visibleTextEditors doc.uri
              { range := r },
          activeTextEditor := some { e with selection := some { range := r } } } },
        [Event.runCommand cmd [a, b]]) := by
  have step : executeCommand s cmd [a, b, CmdArg.str uri, CmdArg.range r] =
      (match getOpenDocument s uri with
       | none => none
       | some document =>
         match activateEditorWithSelection s document r with
         | none => none
         | some s1 => some (s1, [Event.runCommand cmd [a, b]])) := rfl
  rw [step, hdoc]
  simp [activateEditorWithSelection, hfind]

/-- Witness for C6: a concrete command invocation with the last two arguments
consumed as editor context. -/
theorem executeCommand_reactivates_with_context_witness :
    executeCommand stW "workspace-edit"
        [CmdArg.num 1, CmdArg.num 2, CmdArg.str "file:///a.go",
          CmdArg.range rngW] =
      some ({ stW with window :=
        { visibleTextEditors :=
            setSelectionFirst stW.window.visibleTextEditors docA.uri
              { range := rngW },
          activeTextEditor :=
            some { edA with selection := some { range := rngW } } } },
        [Event.runCommand "workspace-edit" [CmdArg.num 1, CmdArg.num 2]]) :=
  executeCommand_reactivates_with_context stW "workspace-edit"
    (CmdArg.num 1) (CmdArg.num 2) "file:///a.go" rngW docA edA
    (by decide) (by decide)

/-- Claim C7: a `didSave` on an open document runs the save mutation and then
exactly one `buildCode(false)` call, in that order; when the save step throws,
no build call happens at all. -/
theorem didSave_builds_once_after_save (s : ServerState) (uri : String)
    (doc : TextDocument) (hdoc : getOpenDocument s uri = some doc) :
    (didSaveTextDocument s uri (Except.ok ())).events =
      [Event.docSave doc.uri, Event.buildCall false] ∧
    ∀ err, buildCount
      (didSaveTextDocument s uri (Except.error err)).events = 0 := by
  constructor
  · simp [didSaveTextDocument, executeOnDocument, hdoc]
  · intro err
    simp [didSaveTextDocument, executeOnDocument, hdoc, buildCount,
      List.filter]

/-- Witness for C7: a concrete save builds exactly once, after the mutation;
a concrete failing save never builds. -/
theorem didSave_builds_once_after_save_witness :
    (didSaveTextDocument stW "file:///a.go" (Except.ok ())).events =
      [Event.docSave docA.uri, Event.buildCall false] ∧
    buildCount (didSaveTextDocument stW "file:///a.go"
      (Except.error "disk full")).events = 0 :=
  ⟨(didSave_builds_once_after_save stW "file:///a.go" docA (by decide)).1,
   (didSave_builds_once_after_save stW "file:///a.go" docA (by decide)).2
     "disk full"⟩

/-- Claim C8: `documentHighlight` returns the empty list on every input,
leaves the state untouched, and performs no lookup, provider call or
failure. -/
theorem documentHighlight_always_empty (s : ServerState) (uri : String)
    (pos : Pos) : documentHighlight s uri pos = (s, [], []) := rfl

/-- Claim C9: a successful completion request yields `isIncomplete = false`
and the provider's items followed by the static snippet proposals. -/
theorem completion_appends_snippets (s : ServerState) (uri : String)
    (doc : TextDocument) (proposals items : List String)
    (hdoc : getOpenDocument s uri = some doc) :
    (completion s uri proposals (Except.ok items)).outcome =
      DispatchOutcome.success
        { isIncomplete := false, items := items ++ proposals } := by
  simp [completion, executeOnDocument, hdoc]

/-- Witness for C9: a concrete completion result with the snippet proposals
appended after the provider's items. -/
theorem completion_appends_snippets_witness :
    (completion stW "file:///a.go" ["snippet-if"]
        (Except.ok ["fmt.Println"])).outcome =
      DispatchOutcome.success
        { isIncomplete := false, items := ["fmt.Println", "snippet-if"] } :=
  completion_appends_snippets stW "file:///a.go" docA ["snippet-if"]
    ["fmt.Println"] (by decide)

/-- Claim C10: `codeLensResolve` bypasses the dispatch pipeline: it touches no
registry, activates nothing, wraps no error, and simply hands the provider the
lens with its document field overwritten by the current active editor's
document, returning the provider's output unchanged. -/
theorem codeLensResolve_uses_active_editor (s : ServerState) (e : TextEditor)
    (lens : CodeLens)
    (resolve : CodeLens → List Event × Except String CodeLens)
    (hactive : s.window.activeTextEditor = some e) :
    codeLensResolve s lens resolve =
      some (s, resolve { lens with document := some e.document }) := by
  simp [codeLensResolve, hactive]

/-- Witness for C10: resolving a concrete lens overwrites its document with
the active editor's document and keeps the state unchanged. -/
theorem codeLensResolve_uses_active_editor_witness :
    codeLensResolve stW lensW resolveEcho =
      some (stW, resolveEcho { lensW with document := some edA.document }) :=
  codeLensResolve_uses_active_editor stW edA lensW resolveEcho rfl

end LspServerModel
